import Mathlib

/-!
Shallow embedding of the debris-tracker detection pipeline
(src/algorithm/detector.py and src/algorithm/live_detector.py).

Grids (frames, background models, residual maps) are lists of rows of
rationals; numpy float values are modelled as exact rationals.  The
external skimage region-properties extractor is passed in as an oracle
producing the per-region measurements the classifier consumes.
-/

namespace DebrisTracker

/-- Python round(): round half to even (banker's rounding) on an exact value. -/
def pyRound (x : ℚ) : ℤ :=
  let n := ⌊x⌋
  let frac := x - n
  if frac < 1/2 then n
  else if 1/2 < frac then n + 1
  else if n % 2 = 0 then n else n + 1

/-- Python round(x, d): round to d decimal places, half to even. -/
def roundTo (d : ℕ) (x : ℚ) : ℚ := (pyRound (x * 10 ^ d) : ℚ) / 10 ^ d

/-- Sorting step underlying np.median (any comparison sort agrees on ℚ). -/
def ordina (l : List ℚ) : List ℚ := List.insertionSort (· ≤ ·) l

/-- np.median on a flat collection of values: middle element of the sorted
data for odd length, mean of the two middle elements for even length. -/
def mediana (l : List ℚ) : ℚ :=
  let s := ordina l
  if l.length = 0 then 0
  else if l.length % 2 = 1 then s.getD (l.length / 2) 0
  else (s.getD (l.length / 2 - 1) 0 + s.getD (l.length / 2) 0) / 2

/-- A frame, background model or residual map: a grid of rows of values. -/
abbrev Grid := List (List ℚ)

/-- A binary mask grid (uint8 entries 0 or 1). -/
abbrev Mask := List (List ℕ)

/-- Detection threshold in sigma units (SIGMA_SOGLIA). -/
def SIGMA_SOGLIA : ℚ := 4

/-- Eccentricity floor for debris (ECCENTRICITA_MIN). -/
def ECCENTRICITA_MIN : ℚ := 9/10

/-- Minimum pixel area for a debris streak (AREA_MIN_STREAK). -/
def AREA_MIN_STREAK : ℕ := 15

/-- Minimum pixel area for a star (AREA_MIN_STELLA). -/
def AREA_MIN_STELLA : ℕ := 3

/-- Two grids share their shape (np.stack succeeds on a collection iff
every frame shares the first frame's shape). -/
def stessaForma (f g : Grid) : Bool :=
  f.length == g.length &&
    (f.zip g).all (fun rr => rr.1.length == rr.2.length)

/-- All frames of a collection share the first frame's shape. -/
def formeCompatibili (frames : List Grid) : Bool :=
  match frames with
  | [] => true
  | f :: rest => rest.all (stessaForma f)

/-- The value of a grid at pixel (i, j), with 0 outside the bounds. -/
def pixel (g : Grid) (i j : ℕ) : ℚ := (g.getD i []).getD j 0

/-- The values one pixel takes across a collection of frames. -/
def colonna (frames : List Grid) (i j : ℕ) : List ℚ :=
  frames.map (fun g => pixel g i j)

/-- Pixelwise median of a stack of frames:
np.median(np.stack(frames, axis=0), axis=0). -/
def medianaPixelwise (frames : List Grid) : Grid :=
  match frames with
  | [] => []
  | f :: _ =>
    (List.range f.length).map (fun i =>
      (List.range (f.getD i []).length).map (fun j =>
        mediana (colonna frames i j)))

/-- STEP 1 (calcola_fondo_mediano): np.stack raises on an empty collection
or on mismatched shapes (modelled as the InvalidInput error); otherwise the
background is the pixelwise median of the stack. -/
def calcola_fondo_mediano (frames : List Grid) : Except String Grid :=
  match frames with
  | [] => .error "InvalidInput"
  | f :: rest =>
    if rest.all (stessaForma f) then .ok (medianaPixelwise (f :: rest))
    else .error "InvalidInput"

/-- STEP 2 (sottrai_fondo): residuo = np.clip(frame - fondo, 0, None). -/
def sottrai_fondo (frame fondo : Grid) : Grid :=
  List.zipWith (fun fr br => List.zipWith (fun a b => max (a - b) 0) fr br)
    frame fondo

/-- STEP 3 (sogliatura): median/MAD statistical threshold over the whole
residual grid; returns the binary mask, the threshold and sigma. -/
def sogliatura (residuo : Grid) (sigma_threshold : ℚ) : Mask × ℚ × ℚ :=
  let flat := residuo.flatten
  let medianaR := mediana flat
  let mad := mediana (flat.map (fun x => |x - medianaR|))
  let sigma := mad * (1.4826 : ℚ)
  let soglia := medianaR + sigma_threshold * sigma
  (residuo.map (fun row => row.map (fun x => if soglia < x then 1 else 0)),
    soglia, sigma)

/-- The number of mask pixels flagged 1. -/
def conta_flag (m : Mask) : ℕ := m.flatten.countP (fun x => x == 1)

/-- The measurements skimage regionprops reports for one 8-connected
region of a mask (the measuring library is external to the repository;
the classifier consumes its output).  Orientation is in radians. -/
structure Regione where
  centroid : ℚ × ℚ
  bbox : ℤ × ℤ × ℤ × ℤ
  area : ℕ
  eccentricity : ℚ
  orientation : ℚ
  major_axis_length : ℚ
  minor_axis_length : ℚ
deriving DecidableEq

/-- The regionprops oracle: the external labelling and measuring step,
mapping a mask to its measured 8-connected regions. -/
abbrev Proprieta := Mask → List Regione

/-- np.degrees: multiplication by the double-precision value of 180/pi. -/
def gradi (x : ℚ) : ℚ := x * (5729577951308232 / 100000000000000)

/-- The debris dictionary built inside classifica_oggetti. -/
structure Detrito where
  centroid : ℚ × ℚ
  bbox : ℤ × ℤ × ℤ × ℤ
  area : ℕ
  eccentricita : ℚ
  orientazione : ℚ
  lunghezza : ℚ
  larghezza : ℚ
deriving DecidableEq

/-- The star dictionary built inside classifica_oggetti. -/
structure Stella where
  centroid : ℚ × ℚ
  area : ℕ
  eccentricita : ℚ
deriving DecidableEq

/-- The debris entry for one region, with the rounding applied in the code. -/
def mkDetrito (obj : Regione) : Detrito :=
  { centroid := obj.centroid
    bbox := obj.bbox
    area := obj.area
    eccentricita := roundTo 4 obj.eccentricity
    orientazione := roundTo 2 (gradi obj.orientation)
    lunghezza := roundTo 2 obj.major_axis_length
    larghezza := roundTo 2 obj.minor_axis_length }

/-- The star entry for one region, with the rounding applied in the code. -/
def mkStella (obj : Regione) : Stella :=
  { centroid := obj.centroid
    area := obj.area
    eccentricita := roundTo 4 obj.eccentricity }

/-- STEP 4 (classifica_oggetti), the classification loop over the measured
regions: discard a region with area below AREA_MIN_STELLA; debris iff
eccentricity ≥ ECCENTRICITA_MIN and area ≥ AREA_MIN_STREAK; star
otherwise. -/
def classifica_oggetti : List Regione → List Detrito × List Stella
  | [] => ([], [])
  | obj :: rest =>
    let resto := classifica_oggetti rest
    if obj.area < AREA_MIN_STELLA then resto
    else if ECCENTRICITA_MIN ≤ obj.eccentricity ∧ AREA_MIN_STREAK ≤ obj.area
    then (mkDetrito obj :: resto.1, resto.2)
    else (resto.1, mkStella obj :: resto.2)

/-- One detection record as built by processa_sequenza (batch mode). -/
structure RilevamentoBatch where
  frame_index : ℕ
  timestamp : String
  centroid_y : ℚ
  centroid_x : ℚ
  area_px : ℕ
  eccentricita : ℚ
  orientazione : ℚ
  lunghezza_px : ℚ
  sigma_soglia : ℚ
deriving DecidableEq

/-- The synthetic frame label: the f-string frame_NNNN with %04d padding. -/
def etichettaFrame (i : ℕ) : String :=
  let s := toString i
  "frame_" ++ String.mk (List.replicate (4 - s.length) '0') ++ s

/-- One batch record from a debris entry (the dictionary built at
detector.py lines 164-174); note the last field stores sigma. -/
def record_batch (i : ℕ) (ts : String) (d : Detrito) (sigma : ℚ) :
    RilevamentoBatch :=
  { frame_index := i
    timestamp := ts
    centroid_y := roundTo 2 d.centroid.1
    centroid_x := roundTo 2 d.centroid.2
    area_px := d.area
    eccentricita := d.eccentricita
    orientazione := d.orientazione
    lunghezza_px := d.lunghezza
    sigma_soglia := roundTo 3 sigma }

/-- The body of the per-frame loop of processa_sequenza. -/
def processa_un_frame (props : Proprieta) (fondo : Grid) (i : ℕ)
    (ts : String) (frame : Grid) : List RilevamentoBatch :=
  let residuo := sottrai_fondo frame fondo
  let r := sogliatura residuo SIGMA_SOGLIA
  let detriti := (classifica_oggetti (props r.1)).1
  detriti.map (fun d => record_batch i ts d r.2.2)

/-- The timestamp string used for frame i by processa_sequenza. -/
def timestampBatch (timestamps : Option (List String)) (i : ℕ) : String :=
  match timestamps with
  | some tss => tss.getD i ""
  | none => etichettaFrame i

/-- STEP 5 (processa_sequenza): one background from the whole sequence,
then the per-frame pipeline; a stack failure propagates to the caller
before any residual is computed. -/
def processa_sequenza (props : Proprieta) (frames : List Grid)
    (timestamps : Option (List String)) :
    Except String (List RilevamentoBatch × Grid) :=
  match calcola_fondo_mediano frames with
  | .error e => .error e
  | .ok fondo =>
    .ok ((frames.enum.map (fun p =>
      processa_un_frame props fondo p.1 (timestampBatch timestamps p.1)
        p.2)).flatten, fondo)

/-- Number of frames acquired by calibra (N_FRAME_CALIBRAZIONE). -/
def N_FRAME_CALIBRAZIONE : ℕ := 50

/-- Rolling-buffer capacity in live mode (BUFFER_SIZE). -/
def BUFFER_SIZE : ℕ := 100

/-- Background rebuild interval in frames (aggiorna_fondo_ogni). -/
def AGGIORNA_FONDO_OGNI : ℕ := 30

/-- The last n elements of a list: the contents of a deque with maxlen n
after pushing the whole list. -/
def ultimi (n : ℕ) (l : List α) : List α := l.drop (l.length - n)

/-- One live detection record as built in the live loop; no threshold or
sigma field is stored (sogliatura's second and third results are dropped
at live_detector.py line 160). -/
structure RilevamentoLive where
  frame : ℕ
  timestamp : String
  centroid_x : ℚ
  centroid_y : ℚ
  eccentricita : ℚ
  orientazione : ℚ
  lunghezza_px : ℚ
  area_px : ℕ
deriving DecidableEq

/-- One live record from a debris entry (live_detector.py lines 167-176). -/
def record_live (n : ℕ) (ts : String) (d : Detrito) : RilevamentoLive :=
  { frame := n
    timestamp := ts
    centroid_x := roundTo 2 d.centroid.2
    centroid_y := roundTo 2 d.centroid.1
    eccentricita := d.eccentricita
    orientazione := d.orientazione
    lunghezza_px := d.lunghezza
    area_px := d.area }

/-- The mutable state of the live loop in live_detector.main. -/
structure StatoLive where
  n_frame : ℕ
  buffer : List Grid
  fondo : Grid
  rilevamenti : List RilevamentoLive
deriving DecidableEq

/-- calibra: build the initial background from the freshly acquired
calibration frames and seed the deque (maxlen BUFFER_SIZE) with them; a
stack failure propagates. -/
def calibra (frames_cal : List Grid) : Except String (Grid × List Grid) :=
  match calcola_fondo_mediano frames_cal with
  | .error e => .error e
  | .ok fondo => .ok (fondo, ultimi BUFFER_SIZE frames_cal)

/-- One iteration of the live while-loop: detection against the current
background, record emission for debris, bounded buffer push, and the
periodic wholesale background rebuild every AGGIORNA_FONDO_OGNI frames. -/
def passo_live (props : Proprieta) (s : StatoLive) (gray : Grid)
    (ts : String) : Except String StatoLive :=
  let n := s.n_frame + 1
  let residuo := sottrai_fondo gray s.fondo
  let r := sogliatura residuo SIGMA_SOGLIA
  let detriti := (classifica_oggetti (props r.1)).1
  let nuovi := detriti.map (record_live n ts)
  let rilev := s.rilevamenti ++ nuovi
  let buffer := ultimi BUFFER_SIZE (s.buffer ++ [gray])
  if n % AGGIORNA_FONDO_OGNI = 0 then
    match calcola_fondo_mediano buffer with
    | .error e => .error e
    | .ok f => .ok ⟨n, buffer, f, rilev⟩
  else .ok ⟨n, buffer, s.fondo, rilev⟩

/-- The handler of the manual recalibrate command in the live loop:
fondo, buffer = calibra(cap); the session list and counter are untouched. -/
def gestisci_ricalibra (s : StatoLive) (frames_cal : List Grid) :
    Except String StatoLive :=
  match calibra frames_cal with
  | .error e => .error e
  | .ok fb => .ok { s with fondo := fb.1, buffer := fb.2 }

/-- The JSON value model for the persisted detections file. -/
inductive Json where
  | str : String → Json
  | int : ℤ → Json
  | num : ℚ → Json
  | arr : List Json → Json
  | obj : List (String × Json) → Json

/-- json.dump of one batch record: one key per field, integer fields kept
as JSON integers, float fields as JSON numbers. -/
def jsonDiBatch (r : RilevamentoBatch) : Json :=
  .obj [("frame_index", .int r.frame_index), ("timestamp", .str r.timestamp),
    ("centroid_y", .num r.centroid_y), ("centroid_x", .num r.centroid_x),
    ("area_px", .int r.area_px), ("eccentricita", .num r.eccentricita),
    ("orientazione", .num r.orientazione),
    ("lunghezza_px", .num r.lunghezza_px),
    ("sigma_soglia", .num r.sigma_soglia)]

/-- json.dump of one live record. -/
def jsonDiLive (r : RilevamentoLive) : Json :=
  .obj [("frame", .int r.frame), ("timestamp", .str r.timestamp),
    ("centroid_x", .num r.centroid_x), ("centroid_y", .num r.centroid_y),
    ("eccentricita", .num r.eccentricita),
    ("orientazione", .num r.orientazione),
    ("lunghezza_px", .num r.lunghezza_px), ("area_px", .int r.area_px)]

/-- Read a JSON value back as a natural number. -/
def asNat (j : Json) : Option ℕ :=
  match j with
  | .int n => if 0 ≤ n then some n.toNat else none
  | _ => none

/-- Read a JSON value back as a string. -/
def asStr (j : Json) : Option String :=
  match j with
  | .str s => some s
  | _ => none

/-- Read a JSON value back as a number. -/
def asNum (j : Json) : Option ℚ :=
  match j with
  | .num q => some q
  | _ => none

/-- Parse one batch record back from its JSON object. -/
def batchDiJson (j : Json) : Option RilevamentoBatch :=
  match j with
  | .obj [("frame_index", jf), ("timestamp", jt), ("centroid_y", jy),
      ("centroid_x", jx), ("area_px", ja), ("eccentricita", je),
      ("orientazione", jo), ("lunghezza_px", jl), ("sigma_soglia", js)] =>
    match asNat jf, asStr jt, asNum jy, asNum jx, asNat ja, asNum je,
        asNum jo, asNum jl, asNum js with
    | some fi, some ts, some cy, some cx, some ar, some ec, some oo,
        some lu, some si => some ⟨fi, ts, cy, cx, ar, ec, oo, lu, si⟩
    | _, _, _, _, _, _, _, _, _ => none
  | _ => none

/-- Parse one live record back from its JSON object. -/
def liveDiJson (j : Json) : Option RilevamentoLive :=
  match j with
  | .obj [("frame", jf), ("timestamp", jt), ("centroid_x", jx),
      ("centroid_y", jy), ("eccentricita", je), ("orientazione", jo),
      ("lunghezza_px", jl), ("area_px", ja)] =>
    match asNat jf, asStr jt, asNum jx, asNum jy, asNum je, asNum jo,
        asNum jl, asNat ja with
    | some fr, some ts, some cx, some cy, some ec, some oo, some lu,
        some ar => some ⟨fr, ts, cx, cy, ec, oo, lu, ar⟩
    | _, _, _, _, _, _, _, _ => none
  | _ => none

/-- salva_risultati: the persisted form is the JSON array of the records
in order. -/
def salva_risultati (rs : List RilevamentoBatch) : Json :=
  .arr (rs.map jsonDiBatch)

/-- salva_risultati applied to a live-session record list. -/
def salva_risultati_live (rs : List RilevamentoLive) : Json :=
  .arr (rs.map jsonDiLive)

/-- Parse every element of a JSON array, failing if any element fails. -/
def parseLista (f : Json → Option α) : List Json → Option (List α)
  | [] => some []
  | j :: js =>
    match f j, parseLista f js with
    | some r, some rest => some (r :: rest)
    | _, _ => none

/-- Parse the persisted JSON array back into batch records. -/
def leggi_risultati (j : Json) : Option (List RilevamentoBatch) :=
  match j with
  | .arr js => parseLista batchDiJson js
  | _ => none

/-- Parse the persisted JSON array back into live records. -/
def leggi_risultati_live (j : Json) : Option (List RilevamentoLive) :=
  match j with
  | .arr js => parseLista liveDiJson js
  | _ => none

/-- A concrete measured region: area 15, eccentricity exactly 0.90. -/
def regioneStreak : Regione :=
  { centroid := (220, 85)
    bbox := (219, 50, 221, 120)
    area := 15
    eccentricity := 9/10
    orientation := 0
    major_axis_length := 70
    minor_axis_length := 2 }

/-- The same region with area one pixel below the debris floor. -/
def regioneCorta : Regione := { regioneStreak with area := 14 }

/-- The same region with area below the noise floor. -/
def regioneRumore : Regione := { regioneStreak with area := 2 }

/-- A concrete one-row residual map with a nonzero median. -/
def residuoEsempio : Grid := [[1, 2, 3, 4, 100]]

/-- A regionprops oracle reporting no region on any mask. -/
def propsVuoto : Proprieta := fun _ => []

/-- A regionprops oracle reporting the concrete streak region. -/
def propsStreak : Proprieta := fun _ => [regioneStreak]

/-- An all-zero background of the example's resolution. -/
def fondoZero : Grid := [[0, 0, 0, 0, 0]]

/-- Ten one-pixel frames: nine carry the stable value 2, one carries a
transient 7. -/
def framesEsempio : List Grid := List.replicate 9 [[2]] ++ [[[7]]]

/-- A concrete live detection record. -/
def recEsempio : RilevamentoLive := ⟨1, "t", 0, 0, 0, 0, 0, 10⟩

theorem ordina_perm (l : List ℚ) : (ordina l).Perm l :=
  List.perm_insertionSort _ l

theorem ordina_sorted (l : List ℚ) : (ordina l).Sorted (· ≤ ·) :=
  List.sorted_insertionSort _ l

theorem ordina_length (l : List ℚ) : (ordina l).length = l.length :=
  (ordina_perm l).length_eq

/-- In a sorted list, an element below v forces that many smaller elements. -/
theorem sorted_lt_count {s : List ℚ} (hs : s.Sorted (· ≤ ·)) {i : ℕ}
    (hi : i < s.length) {v : ℚ} (hv : s[i] < v) :
    i + 1 ≤ s.countP (fun x => decide (x < v)) := by
  have h1 : (s.take (i+1)).countP (fun x => decide (x < v))
      = (s.take (i+1)).length := by
    rw [List.countP_eq_length]
    intro a ha
    rw [List.mem_take_iff_getElem] at ha
    obtain ⟨j, hj, rfl⟩ := ha
    have hji : j ≤ i := by omega
    have hjs : j < s.length := by omega
    have hle : s.get ⟨j, hjs⟩ ≤ s.get ⟨i, hi⟩ := hs.rel_get_of_le hji
    simp only [List.get_eq_getElem] at hle
    simpa using lt_of_le_of_lt hle hv
  have h2 := List.countP_append (fun x => decide (x < v))
    (s.take (i+1)) (s.drop (i+1))
  rw [List.take_append_drop] at h2
  have h3 : (s.take (i+1)).length = i + 1 := by
    rw [List.length_take]; omega
  omega

/-- In a sorted list, an element above v forces that many larger elements. -/
theorem sorted_gt_count {s : List ℚ} (hs : s.Sorted (· ≤ ·)) {i : ℕ}
    (hi : i < s.length) {v : ℚ} (hv : v < s[i]) :
    s.length - i ≤ s.countP (fun x => decide (v < x)) := by
  have h1 : (s.drop i).countP (fun x => decide (v < x))
      = (s.drop i).length := by
    rw [List.countP_eq_length]
    intro a ha
    rw [List.mem_drop_iff_getElem] at ha
    obtain ⟨j, hj, rfl⟩ := ha
    have hijs : i + j < s.length := by omega
    have hle : s.get ⟨i, hi⟩ ≤ s.get ⟨i + j, hijs⟩ :=
      hs.rel_get_of_le (by simp)
    simp only [List.get_eq_getElem] at hle
    simpa using lt_of_lt_of_le hv hle
  have h2 := List.countP_append (fun x => decide (v < x))
    (s.take i) (s.drop i)
  rw [List.take_append_drop] at h2
  have h3 : (s.drop i).length = s.length - i := List.length_drop i s
  omega

/-- A position past all smaller elements and before all larger ones holds v. -/
theorem sorted_middle_eq {s : List ℚ} (hs : s.Sorted (· ≤ ·)) {v : ℚ} {i : ℕ}
    (hi : i < s.length)
    (ha : s.countP (fun x => decide (x < v)) ≤ i)
    (hb : i + s.countP (fun x => decide (v < x)) < s.length) : s[i] = v := by
  by_contra hne
  rcases lt_or_gt_of_ne hne with h | h
  · have := sorted_lt_count hs hi h; omega
  · have := sorted_gt_count hs hi h; omega

theorem count_ne_split (v : ℚ) (l : List ℚ) :
    l.countP (fun x => decide (x < v)) + l.countP (fun x => decide (v < x))
      = l.countP (fun x => decide (x ≠ v)) := by
  induction l with
  | nil => simp
  | cons x xs ih =>
    simp only [List.countP_cons, ← ih]
    rcases lt_trichotomy x v with h | h | h
    · simp only [decide_eq_true h, decide_eq_true h.ne,
        decide_eq_false (not_lt.mpr h.le)]
      simp; omega
    · subst h
      simp only [decide_eq_false (lt_irrefl x), ne_eq, not_true_eq_false]
      simp
    · simp only [decide_eq_true h, decide_eq_true h.ne',
        decide_eq_false (not_lt.mpr h.le)]
      simp; omega

/-- Median robustness: if fewer than a tenth of the samples differ from v,
the median is exactly v (not a blend). -/
theorem mediana_of_count {l : List ℚ} {v : ℚ} (hne : l ≠ [])
    (hc : 10 * l.countP (fun x => decide (x ≠ v)) ≤ l.length) :
    mediana l = v := by
  set s := ordina l with hsdef
  have hsl : s.length = l.length := ordina_length l
  have hperm := ordina_perm l
  have hsor := ordina_sorted l
  have hn : l.length ≠ 0 := by
    intro h; exact hne (List.length_eq_zero.mp h)
  have hca : s.countP (fun x => decide (x < v))
      = l.countP (fun x => decide (x < v)) := hperm.countP_eq _
  have hcb : s.countP (fun x => decide (v < x))
      = l.countP (fun x => decide (v < x)) := hperm.countP_eq _
  have hsplit := count_ne_split v l
  rcases Nat.even_or_odd l.length with he | ho
  · have hmod : l.length % 2 = 0 := Nat.even_iff.mp he
    have hi1 : l.length / 2 - 1 < s.length := by rw [hsl]; omega
    have hi2 : l.length / 2 < s.length := by rw [hsl]; omega
    have hv1 : s[l.length / 2 - 1] = v := by
      apply sorted_middle_eq hsor hi1
      · rw [hca]; omega
      · rw [hcb, hsl]; omega
    have hv2 : s[l.length / 2] = v := by
      apply sorted_middle_eq hsor hi2
      · rw [hca]; omega
      · rw [hcb, hsl]; omega
    rw [mediana]
    simp only [hmod, hn, if_false]
    rw [← hsdef, List.getD_eq_getElem s 0 hi1, List.getD_eq_getElem s 0 hi2,
      hv1, hv2]
    norm_num
  · have hmod : l.length % 2 = 1 := Nat.odd_iff.mp ho
    have hi2 : l.length / 2 < s.length := by rw [hsl]; omega
    have hv2 : s[l.length / 2] = v := by
      apply sorted_middle_eq hsor hi2
      · rw [hca]; omega
      · rw [hcb, hsl]; omega
    rw [mediana]
    simp only [hmod, hn, if_false, if_true]
    rw [← hsdef, List.getD_eq_getElem s 0 hi2, hv2]

/-- The median of nonnegative samples is nonnegative. -/
theorem mediana_nonneg {l : List ℚ} (h : ∀ x ∈ l, 0 ≤ x) : 0 ≤ mediana l := by
  set s := ordina l with hsdef
  have hsl : s.length = l.length := ordina_length l
  have hmem : ∀ x ∈ s, 0 ≤ x := by
    intro x hx
    exact h x ((ordina_perm l).mem_iff.mp hx)
  have hget : ∀ i, 0 ≤ s.getD i 0 := by
    intro i
    by_cases hi : i < s.length
    · rw [List.getD_eq_getElem s 0 hi]
      exact hmem _ (List.getElem_mem hi)
    · rw [List.getD_eq_getElem?_getD]
      rw [List.getElem?_eq_none (by omega)]
      simp
  rw [mediana]
  by_cases h0 : l.length = 0
  · simp [h0]
  · by_cases h1 : l.length % 2 = 1
    · simp only [h0, h1, if_false, if_true]
      exact hget _
    · simp only [h0, h1, if_false]
      have := hget (l.length / 2 - 1)
      have := hget (l.length / 2)
      positivity

/-- C1: classifica_oggetti applies the rule in order — a region with area
below 3 px is discarded (neither star nor debris); otherwise it is debris
iff its eccentricity is at least 0.90 and its area at least 15 px (both
comparisons inclusive: area 15 with eccentricity 0.90 is debris, area 14
with eccentricity 0.90 is a star); every surviving region receives exactly
one of the two classes. -/
theorem classifica_regola :
    (∀ proprieta : List Regione,
      classifica_oggetti proprieta =
        (proprieta.filterMap (fun obj =>
          if AREA_MIN_STELLA ≤ obj.area ∧ ECCENTRICITA_MIN ≤ obj.eccentricity
              ∧ AREA_MIN_STREAK ≤ obj.area
          then some (mkDetrito obj) else none),
         proprieta.filterMap (fun obj =>
          if AREA_MIN_STELLA ≤ obj.area ∧
              ¬ (ECCENTRICITA_MIN ≤ obj.eccentricity ∧
                AREA_MIN_STREAK ≤ obj.area)
          then some (mkStella obj) else none)))
    ∧ (∀ obj : Regione, obj.area < AREA_MIN_STELLA →
        classifica_oggetti [obj] = ([], []))
    ∧ (∀ obj : Regione, AREA_MIN_STELLA ≤ obj.area →
        (classifica_oggetti [obj]).1.length
          + (classifica_oggetti [obj]).2.length = 1)
    ∧ (∀ obj : Regione, obj.area = 15 → obj.eccentricity = 9/10 →
        classifica_oggetti [obj] = ([mkDetrito obj], []))
    ∧ (∀ obj : Regione, obj.area = 14 → obj.eccentricity = 9/10 →
        classifica_oggetti [obj] = ([], [mkStella obj])) := by
  refine ⟨?_, ?_, ?_, ?_, ?_⟩
  · intro proprieta
    induction proprieta with
    | nil => simp [classifica_oggetti]
    | cons obj rest ih =>
      by_cases h1 : obj.area < AREA_MIN_STELLA
      · have h1a : ¬ AREA_MIN_STELLA ≤ obj.area := not_le.mpr h1
        simp [classifica_oggetti, ih, List.filterMap_cons, h1, h1a]
      · have h1a : AREA_MIN_STELLA ≤ obj.area := not_lt.mp h1
        by_cases h2 : ECCENTRICITA_MIN ≤ obj.eccentricity
            ∧ AREA_MIN_STREAK ≤ obj.area
        · simp [classifica_oggetti, ih, List.filterMap_cons, h1, h1a,
            h2, h2.1, h2.2]
        · have h2i : ECCENTRICITA_MIN ≤ obj.eccentricity →
              obj.area < AREA_MIN_STREAK := by
            intro he
            by_contra hs
            exact h2 ⟨he, not_lt.mp hs⟩
          simp [classifica_oggetti, ih, List.filterMap_cons, h1, h1a,
            h2, eq_true h2i]
  · intro obj h
    simp [classifica_oggetti, h]
  · intro obj h
    have h1 : ¬ obj.area < AREA_MIN_STELLA := not_lt.mpr h
    by_cases h2 : ECCENTRICITA_MIN ≤ obj.eccentricity
        ∧ AREA_MIN_STREAK ≤ obj.area
    · simp [classifica_oggetti, h1, h2]
    · simp [classifica_oggetti, h1, h2]
  · intro obj ha he
    have h1 : ¬ obj.area < AREA_MIN_STELLA := by
      rw [ha]; decide
    have h2 : ECCENTRICITA_MIN ≤ obj.eccentricity
        ∧ AREA_MIN_STREAK ≤ obj.area := by
      rw [ha, he]
      constructor
      · norm_num [ECCENTRICITA_MIN]
      · decide
    simp [classifica_oggetti, h1, h2]
  · intro obj ha he
    have h1 : ¬ obj.area < AREA_MIN_STELLA := by
      rw [ha]; decide
    have h2 : ¬ (ECCENTRICITA_MIN ≤ obj.eccentricity
        ∧ AREA_MIN_STREAK ≤ obj.area) := by
      rw [ha]
      intro h
      exact absurd h.2 (by decide)
    simp [classifica_oggetti, h1, h2]

/-- Witness: the classifier rule evaluated at concrete boundary regions. -/
theorem classifica_regola_witness :
    classifica_oggetti [regioneRumore] = ([], [])
    ∧ classifica_oggetti [regioneStreak] = ([mkDetrito regioneStreak], [])
    ∧ classifica_oggetti [regioneCorta] = ([], [mkStella regioneCorta])
    ∧ (classifica_oggetti [regioneStreak]).1.length
        + (classifica_oggetti [regioneStreak]).2.length = 1 :=
  ⟨classifica_regola.2.1 regioneRumore (by decide),
   classifica_regola.2.2.2.1 regioneStreak rfl rfl,
   classifica_regola.2.2.2.2 regioneCorta rfl rfl,
   classifica_regola.2.2.1 regioneStreak (by decide)⟩

theorem grid_map_pixel (g : Grid) (f : ℚ → ℕ) {i j : ℕ}
    (hi : i < g.length) (hj : j < (g.getD i []).length) :
    ((g.map (fun row => row.map f)).getD i []).getD j 0
      = f ((g.getD i []).getD j 0) := by
  have hgi : g.getD i [] = g[i] := List.getD_eq_getElem g [] hi
  have hi2 : i < (g.map (fun row => row.map f)).length := by simpa using hi
  have h1 : (g.map (fun row => row.map f)).getD i [] = (g[i]).map f := by
    rw [List.getD_eq_getElem _ _ hi2, List.getElem_map]
  rw [hgi] at hj
  have hj2 : j < ((g[i]).map f).length := by simpa using hj
  rw [h1, hgi, List.getD_eq_getElem _ _ hj2, List.getElem_map,
    List.getD_eq_getElem _ _ hj]

/-- C2: sogliatura returns sigma = 1.4826 * MAD, the threshold
median + k * sigma, and a mask flagging exactly the pixels strictly above
the threshold. -/
theorem sogliatura_caratterizzazione (residuo : Grid) (k : ℚ) :
    (sogliatura residuo k).2.2
      = (1.4826 : ℚ) * mediana (residuo.flatten.map
          (fun x => |x - mediana residuo.flatten|))
    ∧ (sogliatura residuo k).2.1
      = mediana residuo.flatten + k * (sogliatura residuo k).2.2
    ∧ ∀ i j, i < residuo.length → j < (residuo.getD i []).length →
        ((((sogliatura residuo k).1.getD i []).getD j 0 = 1)
          ↔ (sogliatura residuo k).2.1 < (residuo.getD i []).getD j 0) := by
  refine ⟨by simp [sogliatura]; ring, by simp [sogliatura], ?_⟩
  intro i j hi hj
  have h := grid_map_pixel residuo
    (fun x => if mediana residuo.flatten
        + k * (mediana (residuo.flatten.map
          (fun x => |x - mediana residuo.flatten|)) * (1.4826 : ℚ)) < x
      then 1 else 0) hi hj
  simp only [sogliatura]
  rw [h]
  by_cases hc : mediana residuo.flatten
      + k * (mediana (residuo.flatten.map
        (fun x => |x - mediana residuo.flatten|)) * (1.4826 : ℚ))
      < (residuo.getD i []).getD j 0
  · simp [hc]
  · simp [hc]

/-- Witness: the mask pixel characterization at a concrete residual map. -/
theorem sogliatura_caratterizzazione_witness :
    (((sogliatura residuoEsempio 4).1.getD 0 []).getD 4 0 = 1)
      ↔ (sogliatura residuoEsempio 4).2.1
        < (residuoEsempio.getD 0 []).getD 4 0 :=
  (sogliatura_caratterizzazione residuoEsempio 4).2.2 0 4 (by decide)
    (by decide)

theorem conta_flag_mono (g : Grid) {s1 s2 : ℚ} (h : s1 ≤ s2) :
    conta_flag (g.map (fun row => row.map
        (fun x => if s2 < x then 1 else 0)))
      ≤ conta_flag (g.map (fun row => row.map
        (fun x => if s1 < x then 1 else 0))) := by
  unfold conta_flag
  rw [← List.map_flatten, ← List.map_flatten, List.countP_map,
    List.countP_map]
  apply List.countP_mono_left
  intro x _ hx2
  simp only [Function.comp_apply] at hx2 ⊢
  by_cases hc : s2 < x
  · have h1 : s1 < x := lt_of_le_of_lt h hc
    simp [h1]
  · simp [hc] at hx2

/-- C4: for a fixed residual map and 0 ≤ k1 ≤ k2, the mask produced with
multiplier k2 flags no more pixels than the mask produced with k1. -/
theorem sogliatura_antitona (residuo : Grid) {k1 k2 : ℚ}
    (h0 : 0 ≤ k1) (h12 : k1 ≤ k2) :
    conta_flag (sogliatura residuo k2).1
      ≤ conta_flag (sogliatura residuo k1).1 := by
  have hmad : 0 ≤ mediana (residuo.flatten.map
      (fun x => |x - mediana residuo.flatten|)) := by
    apply mediana_nonneg
    intro x hx
    obtain ⟨y, _, rfl⟩ := List.mem_map.mp hx
    exact abs_nonneg _
  have hsig : (0:ℚ) ≤ mediana (residuo.flatten.map
      (fun x => |x - mediana residuo.flatten|)) * (1.4826 : ℚ) := by
    have : (0:ℚ) ≤ (1.4826 : ℚ) := by norm_num
    exact mul_nonneg hmad this
  have hs : mediana residuo.flatten
      + k1 * (mediana (residuo.flatten.map
          (fun x => |x - mediana residuo.flatten|)) * (1.4826 : ℚ))
      ≤ mediana residuo.flatten
      + k2 * (mediana (residuo.flatten.map
          (fun x => |x - mediana residuo.flatten|)) * (1.4826 : ℚ)) :=
    add_le_add_left (mul_le_mul_of_nonneg_right h12 hsig) _
  simpa [sogliatura] using conta_flag_mono residuo hs

/-- Witness: threshold antitonicity at a concrete residual map. -/
theorem sogliatura_antitona_witness :
    conta_flag (sogliatura residuoEsempio 2).1
      ≤ conta_flag (sogliatura residuoEsempio 1).1 :=
  sogliatura_antitona residuoEsempio (by norm_num) (by norm_num)

/-- C7: the residual is the elementwise clip of frame - fondo at zero:
nonnegative, the exact difference where the frame is at least as bright as
the background, and zero where it is darker. -/
theorem sottrai_fondo_clip (frame fondo : Grid) {i j : ℕ}
    (hif : i < frame.length) (hib : i < fondo.length)
    (hjf : j < (frame.getD i []).length)
    (hjb : j < (fondo.getD i []).length) :
    0 ≤ pixel (sottrai_fondo frame fondo) i j
    ∧ (pixel fondo i j ≤ pixel frame i j →
        pixel (sottrai_fondo frame fondo) i j
          = pixel frame i j - pixel fondo i j)
    ∧ (pixel frame i j < pixel fondo i j →
        pixel (sottrai_fondo frame fondo) i j = 0) := by
  have hfi : frame.getD i [] = frame[i] := List.getD_eq_getElem frame [] hif
  have hbi : fondo.getD i [] = fondo[i] := List.getD_eq_getElem fondo [] hib
  rw [hfi] at hjf
  rw [hbi] at hjb
  have hjz : j < (List.zipWith (fun a b => max (a - b) 0)
      (frame[i]) (fondo[i])).length := by
    rw [List.length_zipWith]
    omega
  have hmain : pixel (sottrai_fondo frame fondo) i j
      = max (pixel frame i j - pixel fondo i j) 0 := by
    unfold pixel sottrai_fondo
    have hiz2 : i < (List.zipWith
        (fun fr br => List.zipWith (fun a b => max (a - b) 0) fr br)
        frame fondo).length := by
      rw [List.length_zipWith]
      omega
    rw [hfi, hbi, List.getD_eq_getElem _ _ hiz2, List.getElem_zipWith,
      List.getD_eq_getElem _ _ hjz, List.getElem_zipWith,
      List.getD_eq_getElem _ _ hjf, List.getD_eq_getElem _ _ hjb]
  refine ⟨?_, ?_, ?_⟩
  · rw [hmain]; exact le_max_right _ _
  · intro h
    rw [hmain]
    exact max_eq_left (sub_nonneg.mpr h)
  · intro h
    rw [hmain]
    exact max_eq_right (sub_nonpos.mpr h.le)

/-- Witness: the clip behavior at concrete bright and dark pixels. -/
theorem sottrai_fondo_clip_witness :
    pixel (sottrai_fondo [[5, 1]] [[3, 2]]) 0 0 = pixel [[5, 1]] 0 0
        - pixel [[3, 2]] 0 0
    ∧ pixel (sottrai_fondo [[5, 1]] [[3, 2]]) 0 1 = 0 :=
  ⟨(sottrai_fondo_clip [[5, 1]] [[3, 2]] (by decide) (by decide) (by decide)
      (by decide)).2.1 (by norm_num [pixel]),
   (sottrai_fondo_clip [[5, 1]] [[3, 2]] (by decide) (by decide)
      (by norm_num) (by norm_num)).2.2 (by norm_num [pixel])⟩

theorem calcola_ok {frames : List Grid} (hne : frames ≠ [])
    (hc : formeCompatibili frames = true) :
    calcola_fondo_mediano frames = .ok (medianaPixelwise frames) := by
  cases frames with
  | nil => exact absurd rfl hne
  | cons f rest =>
    simp only [formeCompatibili] at hc
    simp only [calcola_fondo_mediano]
    rw [if_pos hc]

theorem calcola_ok_val {frames : List Grid} {g : Grid}
    (h : calcola_fondo_mediano frames = .ok g) :
    g = medianaPixelwise frames ∧ frames ≠ []
      ∧ formeCompatibili frames = true := by
  cases frames with
  | nil => simp [calcola_fondo_mediano] at h
  | cons f rest =>
    simp only [calcola_fondo_mediano] at h
    by_cases hc : rest.all (stessaForma f)
    · rw [if_pos hc] at h
      refine ⟨?_, by simp, by simpa [formeCompatibili] using hc⟩
      injection h with h
      exact h.symm
    · rw [if_neg hc] at h
      cases h

/-- C6: the background builder fails with InvalidInput exactly when the
collection is empty or the shapes mismatch, and on such inputs both
callers (batch sequence processing and live calibration) return that
error without producing any record or background. -/
theorem fondo_invalid_input (frames : List Grid) (props : Proprieta)
    (timestamps : Option (List String)) :
    ((∃ g, calcola_fondo_mediano frames = .ok g)
      ↔ frames ≠ [] ∧ formeCompatibili frames = true)
    ∧ ((frames = [] ∨ formeCompatibili frames = false) →
        calcola_fondo_mediano frames = .error "InvalidInput"
        ∧ processa_sequenza props frames timestamps = .error "InvalidInput"
        ∧ calibra frames = .error "InvalidInput") := by
  have herr : (frames = [] ∨ formeCompatibili frames = false) →
      calcola_fondo_mediano frames = .error "InvalidInput" := by
    intro h
    cases frames with
    | nil => rfl
    | cons f rest =>
      rcases h with h | h
      · cases h
      · simp only [formeCompatibili] at h
        simp only [calcola_fondo_mediano]
        rw [if_neg (by simp [h])]
  constructor
  · constructor
    · rintro ⟨g, hg⟩
      exact (calcola_ok_val hg).2
    · rintro ⟨h1, h2⟩
      exact ⟨medianaPixelwise frames, calcola_ok h1 h2⟩
  · intro h
    have h1 := herr h
    refine ⟨h1, ?_, ?_⟩
    · unfold processa_sequenza
      rw [h1]
    · unfold calibra
      rw [h1]

/-- Witness: the empty collection makes the builder and both callers fail. -/
theorem fondo_invalid_input_witness :
    calcola_fondo_mediano [] = .error "InvalidInput"
    ∧ processa_sequenza propsVuoto [] none = .error "InvalidInput"
    ∧ calibra [] = .error "InvalidInput" :=
  (fondo_invalid_input [] propsVuoto none).2 (Or.inl rfl)

/-- C5: the computed background is the per-pixel median across the frames,
and at a pixel that keeps one stable value in at least ninety percent of
the frames it equals the stable value exactly, not a blend. -/
theorem fondo_mediana_robusta (frames : List Grid) (hne : frames ≠ [])
    (hc : formeCompatibili frames = true) (i j : ℕ)
    (hi : i < (frames.headD []).length)
    (hj : j < ((frames.headD []).getD i []).length) :
    ∃ fondo, calcola_fondo_mediano frames = .ok fondo
    ∧ pixel fondo i j = mediana (colonna frames i j)
    ∧ ∀ v : ℚ, 10 * (colonna frames i j).countP (fun x => decide (x ≠ v))
          ≤ frames.length →
        pixel fondo i j = v := by
  refine ⟨medianaPixelwise frames, calcola_ok hne hc, ?_, ?_⟩
  · cases frames with
    | nil => exact absurd rfl hne
    | cons f rest =>
      simp only [List.headD_cons] at hi hj
      unfold medianaPixelwise pixel
      have hi2 : i < ((List.range f.length).map (fun i =>
          (List.range (f.getD i []).length).map (fun j =>
            mediana (colonna (f :: rest) i j)))).length := by
        simpa using hi
      rw [List.getD_eq_getElem _ _ hi2, List.getElem_map,
        List.getElem_range]
      have hj2 : j < ((List.range (f.getD i []).length).map (fun j =>
          mediana (colonna (f :: rest) i j))).length := by
        simpa using hj
      rw [List.getD_eq_getElem _ _ hj2, List.getElem_map,
        List.getElem_range]
  · intro v hv
    cases frames with
    | nil => exact absurd rfl hne
    | cons f rest =>
      have hcol : colonna (f :: rest) i j ≠ [] := by
        simp [colonna]
      have hlen : (colonna (f :: rest) i j).length
          = (f :: rest).length := by
        simp [colonna]
      have hmed : mediana (colonna (f :: rest) i j) = v := by
        apply mediana_of_count hcol
        rw [hlen]
        exact hv
      have hpix : pixel (medianaPixelwise (f :: rest)) i j
          = mediana (colonna (f :: rest) i j) := by
        simp only [List.headD_cons] at hi hj
        unfold medianaPixelwise pixel
        have hi2 : i < ((List.range f.length).map (fun i =>
            (List.range (f.getD i []).length).map (fun j =>
              mediana (colonna (f :: rest) i j)))).length := by
          simpa using hi
        rw [List.getD_eq_getElem _ _ hi2, List.getElem_map,
          List.getElem_range]
        have hj2 : j < ((List.range (f.getD i []).length).map (fun j =>
            mediana (colonna (f :: rest) i j))).length := by
          simpa using hj
        rw [List.getD_eq_getElem _ _ hj2, List.getElem_map,
          List.getElem_range]
      rw [hpix, hmed]

/-- Witness: ten concrete frames with one transient outlier give the
stable value as background at the pixel. -/
theorem fondo_mediana_robusta_witness :
    ∃ fondo, calcola_fondo_mediano framesEsempio = .ok fondo
    ∧ pixel fondo 0 0 = 2 := by
  obtain ⟨fondo, h1, _, h3⟩ := fondo_mediana_robusta framesEsempio
    (by decide) (by decide) 0 0 (by decide) (by decide)
  exact ⟨fondo, h1, h3 2 (by decide)⟩

theorem ultimi_append (l : List α) (x : α) {n : ℕ} (h : l.length ≤ n)
    (hn : 0 < n) :
    ultimi n (l ++ [x])
      = if l.length < n then l ++ [x] else l.tail ++ [x] := by
  unfold ultimi
  rw [List.length_append]
  by_cases hc : l.length < n
  · rw [if_pos hc]
    have h0 : l.length + [x].length - n = 0 := by simp; omega
    rw [h0, List.drop_zero]
  · rw [if_neg hc]
    have he : l.length = n := le_antisymm h (not_lt.mp hc)
    have h1 : l.length + [x].length - n = 1 := by simp; omega
    rw [h1, List.drop_append_of_le_length (by omega), List.drop_one]

theorem passo_live_n_frame {props : Proprieta} {s : StatoLive} {gray : Grid}
    {ts : String} {s2 : StatoLive}
    (hok : passo_live props s gray ts = .ok s2) :
    s2.n_frame = s.n_frame + 1 := by
  simp only [passo_live] at hok
  by_cases h30 : (s.n_frame + 1) % AGGIORNA_FONDO_OGNI = 0
  · rw [if_pos h30] at hok
    cases hcal : calcola_fondo_mediano
        (ultimi BUFFER_SIZE (s.buffer ++ [gray])) with
    | error e => rw [hcal] at hok; cases hok
    | ok f =>
      rw [hcal] at hok
      injection hok with hok
      rw [← hok]
  · rw [if_neg h30] at hok
    injection hok with hok
    rw [← hok]

/-- C8: each live scanning step appends the frame to the capacity-100 FIFO
buffer (evicting the oldest frame once full) and replaces the background
wholesale by the pixelwise median of the buffer exactly on every 30th
frame, leaving it unchanged on all other frames. -/
theorem passo_live_buffer_fondo (props : Proprieta) (s : StatoLive)
    (gray : Grid) (ts : String) (s2 : StatoLive)
    (hlen : s.buffer.length ≤ BUFFER_SIZE)
    (hok : passo_live props s gray ts = .ok s2) :
    s2.n_frame = s.n_frame + 1
    ∧ s2.buffer = (if s.buffer.length < BUFFER_SIZE then s.buffer ++ [gray]
        else s.buffer.tail ++ [gray])
    ∧ s2.buffer.length ≤ BUFFER_SIZE
    ∧ (s2.n_frame % AGGIORNA_FONDO_OGNI = 0 →
        s2.fondo = medianaPixelwise s2.buffer)
    ∧ (s2.n_frame % AGGIORNA_FONDO_OGNI ≠ 0 → s2.fondo = s.fondo) := by
  have hbuf : ultimi BUFFER_SIZE (s.buffer ++ [gray])
      = if s.buffer.length < BUFFER_SIZE then s.buffer ++ [gray]
        else s.buffer.tail ++ [gray] :=
    ultimi_append s.buffer gray hlen (by decide)
  have hblen : (if s.buffer.length < BUFFER_SIZE then s.buffer ++ [gray]
      else s.buffer.tail ++ [gray]).length ≤ BUFFER_SIZE := by
    have hB : BUFFER_SIZE = 100 := rfl
    by_cases hc : s.buffer.length < BUFFER_SIZE
    · rw [if_pos hc]
      simp only [List.length_append, List.length_tail, List.length_cons,
        List.length_nil]
      omega
    · rw [if_neg hc]
      simp only [List.length_append, List.length_tail, List.length_cons,
        List.length_nil]
      omega
  have hnf := passo_live_n_frame hok
  simp only [passo_live] at hok
  by_cases h30 : (s.n_frame + 1) % AGGIORNA_FONDO_OGNI = 0
  · rw [if_pos h30] at hok
    cases hcal : calcola_fondo_mediano
        (ultimi BUFFER_SIZE (s.buffer ++ [gray])) with
    | error e => rw [hcal] at hok; cases hok
    | ok f =>
      rw [hcal] at hok
      have hfv := (calcola_ok_val hcal).1
      injection hok with hok
      refine ⟨hnf, ?_, ?_, ?_, ?_⟩
      · rw [← hok, ← hbuf]
      · rw [← hok]
        rw [← hbuf] at hblen
        exact hblen
      · intro _
        rw [← hok]
        exact hfv
      · intro hne
        rw [hnf] at hne
        exact absurd h30 hne
  · rw [if_neg h30] at hok
    injection hok with hok
    refine ⟨hnf, ?_, ?_, ?_, ?_⟩
    · rw [← hok, ← hbuf]
    · rw [← hok]
      rw [← hbuf] at hblen
      exact hblen
    · intro hz
      rw [hnf] at hz
      exact absurd hz h30
    · intro _
      rw [← hok]

/-- Witness: a concrete 30th frame rebuilds the background from the
buffer; the buffer grows FIFO. -/
theorem passo_live_buffer_fondo_witness :
    (⟨30, [[[1]], [[3]]], [[2]], []⟩ : StatoLive).n_frame
        = (⟨29, [[[1]]], [[5]], []⟩ : StatoLive).n_frame + 1
    ∧ (⟨30, [[[1]], [[3]]], [[2]], []⟩ : StatoLive).buffer
        = (if (⟨29, [[[1]]], [[5]], []⟩ : StatoLive).buffer.length
              < BUFFER_SIZE
          then (⟨29, [[[1]]], [[5]], []⟩ : StatoLive).buffer ++ [[[3]]]
          else (⟨29, [[[1]]], [[5]], []⟩ :
            StatoLive).buffer.tail ++ [[[3]]])
    ∧ (⟨30, [[[1]], [[3]]], [[2]], []⟩ : StatoLive).buffer.length
        ≤ BUFFER_SIZE
    ∧ ((⟨30, [[[1]], [[3]]], [[2]], []⟩ : StatoLive).n_frame
          % AGGIORNA_FONDO_OGNI = 0 →
        (⟨30, [[[1]], [[3]]], [[2]], []⟩ : StatoLive).fondo
          = medianaPixelwise
            (⟨30, [[[1]], [[3]]], [[2]], []⟩ : StatoLive).buffer)
    ∧ ((⟨30, [[[1]], [[3]]], [[2]], []⟩ : StatoLive).n_frame
          % AGGIORNA_FONDO_OGNI ≠ 0 →
        (⟨30, [[[1]], [[3]]], [[2]], []⟩ : StatoLive).fondo
          = (⟨29, [[[1]]], [[5]], []⟩ : StatoLive).fondo) :=
  passo_live_buffer_fondo propsVuoto ⟨29, [[[1]]], [[5]], []⟩ [[3]] "t"
    ⟨30, [[[1]], [[3]]], [[2]], []⟩ (by decide)
    (by
      norm_num [passo_live, sottrai_fondo, sogliatura, propsVuoto,
        classifica_oggetti, ultimi, AGGIORNA_FONDO_OGNI, BUFFER_SIZE,
        medianaPixelwise, colonna, pixel, mediana, ordina,
        List.insertionSort, List.orderedInsert, calcola_fondo_mediano,
        stessaForma, record_live, List.range_succ])

/-- C10: the manual recalibrate handler replaces the background and the
buffer wholesale but leaves the accumulated detection list and the frame
counter unchanged, and frame numbering continues from where it left off. -/
theorem ricalibra_conserva (s : StatoLive) (frames_cal : List Grid)
    (s2 : StatoLive) (hok : gestisci_ricalibra s frames_cal = .ok s2) :
    s2.rilevamenti = s.rilevamenti
    ∧ s2.n_frame = s.n_frame
    ∧ s2.fondo = medianaPixelwise frames_cal
    ∧ s2.buffer = ultimi BUFFER_SIZE frames_cal
    ∧ ∀ props gray ts s3, passo_live props s2 gray ts = .ok s3 →
        s3.n_frame = s.n_frame + 1 := by
  simp only [gestisci_ricalibra, calibra] at hok
  cases hcal : calcola_fondo_mediano frames_cal with
  | error e => rw [hcal] at hok; cases hok
  | ok f =>
    rw [hcal] at hok
    have hfv := (calcola_ok_val hcal).1
    injection hok with hok
    refine ⟨?_, ?_, ?_, ?_, ?_⟩
    · rw [← hok]
    · rw [← hok]
    · rw [← hok]
      exact hfv
    · rw [← hok]
    · intro props gray ts s3 h3
      have := passo_live_n_frame h3
      rw [this, ← hok]

/-- Witness: a concrete recalibration keeps the one stored detection and
the counter, and the next frame is numbered 8. -/
theorem ricalibra_conserva_witness :
    (⟨7, [[[4]], [[6]]], [[5]], [recEsempio]⟩ : StatoLive).rilevamenti
        = (⟨7, [[[9]]], [[9]], [recEsempio]⟩ : StatoLive).rilevamenti
    ∧ (⟨7, [[[4]], [[6]]], [[5]], [recEsempio]⟩ : StatoLive).n_frame
        = (⟨7, [[[9]]], [[9]], [recEsempio]⟩ : StatoLive).n_frame
    ∧ (⟨7, [[[4]], [[6]]], [[5]], [recEsempio]⟩ : StatoLive).fondo
        = medianaPixelwise [[[4]], [[6]]]
    ∧ (⟨8, [[[4]], [[6]], [[5]]], [[5]], [recEsempio]⟩ :
          StatoLive).n_frame
        = (⟨7, [[[9]]], [[9]], [recEsempio]⟩ : StatoLive).n_frame + 1 := by
  obtain ⟨h1, h2, h3, _, h5⟩ := ricalibra_conserva
    ⟨7, [[[9]]], [[9]], [recEsempio]⟩ [[[4]], [[6]]]
    ⟨7, [[[4]], [[6]]], [[5]], [recEsempio]⟩
    (by
      norm_num [gestisci_ricalibra, calibra, calcola_fondo_mediano,
        stessaForma, ultimi, BUFFER_SIZE, medianaPixelwise, colonna,
        pixel, mediana, ordina, List.insertionSort, List.orderedInsert,
        List.range_succ])
  exact ⟨h1, h2, h3,
    h5 propsVuoto [[5]] "t" ⟨8, [[[4]], [[6]], [[5]]], [[5]], [recEsempio]⟩
      (by
      norm_num [passo_live, sottrai_fondo, sogliatura, propsVuoto,
        classifica_oggetti, ultimi, AGGIORNA_FONDO_OGNI, BUFFER_SIZE,
        medianaPixelwise, colonna, pixel, mediana, ordina,
        List.insertionSort, List.orderedInsert, calcola_fondo_mediano,
        stessaForma, record_live, List.range_succ])⟩

/-- C3 (amended): batch records carry frame index, timestamp, centroid x
and y rounded to 2 decimals, pixel area, eccentricity rounded to 4,
orientation in degrees rounded to 2, major-axis length rounded to 2, and
sigma (the MAD noise scale, not the threshold median + k sigma) rounded
to 3; live records carry the same measured fields but no threshold or
sigma value at all; in both modes records are produced only for debris
objects, one record per debris and none for stars (the live loop appends
exactly one record_live per classified debris to the session list). -/
theorem record_campi :
    (∀ (props : Proprieta) (fondo : Grid) (i : ℕ) (ts : String)
        (frame : Grid),
      processa_un_frame props fondo i ts frame
        = ((classifica_oggetti (props (sogliatura
              (sottrai_fondo frame fondo) SIGMA_SOGLIA).1)).1).map
            (fun d => record_batch i ts d
              (sogliatura (sottrai_fondo frame fondo) SIGMA_SOGLIA).2.2))
    ∧ (∀ (i : ℕ) (ts : String) (obj : Regione) (sigma : ℚ),
        record_batch i ts (mkDetrito obj) sigma
          = ⟨i, ts, roundTo 2 obj.centroid.1, roundTo 2 obj.centroid.2,
              obj.area, roundTo 4 obj.eccentricity,
              roundTo 2 (gradi obj.orientation),
              roundTo 2 obj.major_axis_length, roundTo 3 sigma⟩)
    ∧ (∀ (n : ℕ) (ts : String) (obj : Regione),
        record_live n ts (mkDetrito obj)
          = ⟨n, ts, roundTo 2 obj.centroid.2, roundTo 2 obj.centroid.1,
              roundTo 4 obj.eccentricity, roundTo 2 (gradi obj.orientation),
              roundTo 2 obj.major_axis_length, obj.area⟩)
    ∧ (∀ (props : Proprieta) (s : StatoLive) (gray : Grid) (ts : String)
        (s2 : StatoLive), passo_live props s gray ts = .ok s2 →
        s2.rilevamenti = s.rilevamenti
          ++ ((classifica_oggetti (props (sogliatura
                (sottrai_fondo gray s.fondo) SIGMA_SOGLIA).1)).1).map
              (record_live (s.n_frame + 1) ts)) := by
  refine ⟨fun _ _ _ _ _ => rfl, fun _ _ _ _ => rfl, fun _ _ _ => rfl, ?_⟩
  intro props s gray ts s2 hok
  simp only [passo_live] at hok
  by_cases h30 : (s.n_frame + 1) % AGGIORNA_FONDO_OGNI = 0
  · rw [if_pos h30] at hok
    cases hcal : calcola_fondo_mediano
        (ultimi BUFFER_SIZE (s.buffer ++ [gray])) with
    | error e => rw [hcal] at hok; cases hok
    | ok f =>
      rw [hcal] at hok
      injection hok with hok
      rw [← hok]
  · rw [if_neg h30] at hok
    injection hok with hok
    rw [← hok]

/-- Witness: a live step with one classified debris region appends exactly
its record_live entry to the session list. -/
theorem record_campi_witness :
    (⟨1, [[[0, 0, 0, 0, 0]], residuoEsempio], fondoZero,
        [record_live 1 "t" (mkDetrito regioneStreak)]⟩ :
      StatoLive).rilevamenti
      = ([] : List RilevamentoLive)
        ++ ((classifica_oggetti (propsStreak (sogliatura
              (sottrai_fondo residuoEsempio fondoZero) SIGMA_SOGLIA).1)).1).map
            (record_live (0 + 1) "t") :=
  record_campi.2.2.2 propsStreak
    ⟨0, [[[0, 0, 0, 0, 0]]], fondoZero, []⟩ residuoEsempio "t"
    ⟨1, [[[0, 0, 0, 0, 0]], residuoEsempio], fondoZero,
      [record_live 1 "t" (mkDetrito regioneStreak)]⟩
    (by
      norm_num [passo_live, propsStreak, classifica_oggetti, regioneStreak,
        AREA_MIN_STELLA, AREA_MIN_STREAK, ECCENTRICITA_MIN, ultimi,
        AGGIORNA_FONDO_OGNI, BUFFER_SIZE])

/-- C3 counterexample: on a concrete frame the single emitted record
stores round(sigma, 3) = 1.483, while the threshold median + k sigma
rounds to 8.93; the persisted value is not the threshold. -/
theorem record_soglia_controesempio :
    processa_un_frame propsStreak fondoZero 0 (etichettaFrame 0)
        residuoEsempio
      = [record_batch 0 (etichettaFrame 0) (mkDetrito regioneStreak)
          (1.4826 : ℚ)]
    ∧ (record_batch 0 (etichettaFrame 0) (mkDetrito regioneStreak)
        (1.4826 : ℚ)).sigma_soglia = 1.483
    ∧ (sogliatura (sottrai_fondo residuoEsempio fondoZero)
        SIGMA_SOGLIA).2.1 = 8.9304
    ∧ roundTo 3 (8.9304 : ℚ) = 8.93
    ∧ (1.483 : ℚ) ≠ (8.93 : ℚ) := by
  refine ⟨?_, ?_, ?_, ?_, by norm_num⟩
  · norm_num [processa_un_frame, sottrai_fondo, sogliatura, propsStreak,
      classifica_oggetti, regioneStreak, AREA_MIN_STELLA, AREA_MIN_STREAK,
      ECCENTRICITA_MIN, SIGMA_SOGLIA, residuoEsempio, fondoZero, mediana,
      ordina, List.insertionSort, List.orderedInsert]
  · norm_num [record_batch, roundTo, pyRound]
  · norm_num [sottrai_fondo, sogliatura, SIGMA_SOGLIA, residuoEsempio,
      fondoZero, mediana, ordina, List.insertionSort, List.orderedInsert]
  · norm_num [roundTo, pyRound]

theorem batch_round_trip_uno (r : RilevamentoBatch) :
    batchDiJson (jsonDiBatch r) = some r := by
  cases r
  simp [jsonDiBatch, batchDiJson, asNat, asStr, asNum, Int.toNat_natCast]

theorem live_round_trip_uno (r : RilevamentoLive) :
    liveDiJson (jsonDiLive r) = some r := by
  cases r
  simp [jsonDiLive, liveDiJson, asNat, asStr, asNum, Int.toNat_natCast]

/-- C9: serializing an ordered record list to the persisted JSON form and
parsing it back yields the records unchanged, field for field, for both
the batch and the live record shapes (integer fields stay numeric). -/
theorem risultati_round_trip (rs : List RilevamentoBatch)
    (ls : List RilevamentoLive) :
    leggi_risultati (salva_risultati rs) = some rs
    ∧ leggi_risultati_live (salva_risultati_live ls) = some ls := by
  constructor
  · show parseLista batchDiJson (rs.map jsonDiBatch) = some rs
    induction rs with
    | nil => rfl
    | cons r rest ih =>
      simp only [List.map_cons, parseLista, batch_round_trip_uno r, ih]
  · show parseLista liveDiJson (ls.map jsonDiLive) = some ls
    induction ls with
    | nil => rfl
    | cons r rest ih =>
      simp only [List.map_cons, parseLista, live_round_trip_uno r, ih]

end DebrisTracker
